import Mathlib

/-!
Shallow embedding of `api_faturamento_nfse.py` (NFS-e revenue query API).

The source file exposes one POST endpoint that authenticates against a
government portal, scrapes paginated HTML invoice listings, and aggregates
amounts by month.  We embed the pure core of each Python function:

* `processar_pagina` (Page Scraper): a page is modelled as an optional
  `tbody` holding a list of rows; each row carries the stripped text of its
  `td-competencia` cell (if present), the value of its `data-situacao`
  attribute (`""` when absent, as `linha.get('data-situacao', '')` yields),
  and the stripped text of its `td-valor` cell (if present).
* Monetary amounts are modelled as exact rationals (`ℚ`).  Python's
  `float(...)` builtin is modelled on the fixed-point decimal fragment of
  its grammar (optional sign, ASCII digits, at most one dot, surrounding
  whitespace ignored) — exponents, `inf`/`nan`, underscores and non-ASCII
  digits are rejected by the model; the claims evaluate it only on strings
  inside this fragment, where the model is exact at the decimal level.
* `consultar_notas` (Paginator): the HTTP transport is a parameter
  `fetch : Nat → FetchRes`; the unbounded `while True` loop is given fuel,
  with exhaustion reported as a distinct `outOfFuel` outcome.
* `totalizar_por_mes` (Aggregator): the insertion-ordered Python dict is an
  association list `List (String × ℚ)`.
* `consultar` (Request Handler): authentication and the contributor lookup
  are oracle parameters; the pydantic validators are `validar_request`.

String processing is written as structural recursion over `String.data` so
that every definition evaluates inside the kernel on concrete inputs.
-/

/-- One `<tr>` of the listing table, reduced to the fields
`processar_pagina` reads. -/
structure Linha where
  /-- `linha.find('td', class_='td-competencia')`: `none` when the cell is
  absent, otherwise its `get_text(strip=True)`. -/
  td_competencia : Option String
  /-- `linha.get('data-situacao', '')`: the attribute value, `""` when absent. -/
  data_situacao : String
  /-- `linha.find('td', class_='td-valor')`: `none` when the cell is absent,
  otherwise its `get_text(strip=True)`. -/
  td_valor : Option String
deriving DecidableEq, Repr

/-- One fetched HTML page, reduced to what `consultar_notas` reads from it. -/
structure Pagina where
  /-- `soup.find('tbody')`: `none` when the page has no listing table body. -/
  tbody : Option (List Linha)
  /-- Whether `soup.find('div', class_='paginacao')` exists and contains an
  `<a title='Próxima'>` link. -/
  temProxima : Bool
deriving DecidableEq, Repr

/-- An invoice record as appended by `processar_pagina`
(`{'mes': ..., 'ano': ..., 'valor': ..., 'status': 'Autorizada'}`). -/
structure Nota where
  mes : Nat
  ano : Int
  valor : ℚ
  status : String
deriving DecidableEq, Repr, Inhabited

/-- Decimal value of an ASCII digit string (fold, most significant first). -/
def digitosVal (s : List Char) : Nat :=
  s.foldl (fun n c => n * 10 + (c.toNat - 48)) 0

/-- Model of `re.search(r'(\d{2})/(\d{4})', txt)` restricted to matching at
the head of the character list: two ASCII digits, a slash, four ASCII
digits; anything may follow. -/
def compAt : List Char → Option (Nat × Nat)
  | d1 :: d2 :: s :: y1 :: y2 :: y3 :: y4 :: _ =>
    if d1.isDigit && d2.isDigit && (s = '/') && y1.isDigit && y2.isDigit
        && y3.isDigit && y4.isDigit then
      some (digitosVal [d1, d2], digitosVal [y1, y2, y3, y4])
    else
      none
  | _ => none

/-- Model of `re.search(r'(\d{2})/(\d{4})', txt)`: leftmost occurrence of
the (fixed-width) pattern, yielding `(int(group(1)), int(group(2)))`. -/
def buscaComp : List Char → Option (Nat × Nat)
  | [] => none
  | c :: rest =>
    match compAt (c :: rest) with
    | some r => some r
    | none => buscaComp rest

/-- Competence date extracted from a row: `re.search` applied to the text of
the `td-competencia` cell, `none` when the cell is absent or no match. -/
def competencia (l : Linha) : Option (Nat × Nat) :=
  l.td_competencia.bind (fun s => buscaComp s.data)

/-- Model of Python `'GERADA' in status_cod` (substring containment). -/
def contemSub (needle : List Char) : List Char → Bool
  | [] => needle.isPrefixOf []
  | c :: rest => needle.isPrefixOf (c :: rest) || contemSub needle rest

/-- `'GERADA' in status_cod`. -/
def contemGERADA (s : String) : Bool :=
  contemSub "GERADA".data s.data

/-- Split a character list at every occurrence of `sep`
(`str.split(sep)` on a one-character separator). -/
def quebra (sep : Char) : List Char → List (List Char)
  | [] => [[]]
  | c :: rest =>
    match quebra sep rest with
    | [] => [[]]
    | g :: gs => if c = sep then [] :: g :: gs else (c :: g) :: gs

/-- Strip whitespace from both ends (`str.strip()` as applied by `float`). -/
def aparar (cs : List Char) : List Char :=
  ((cs.dropWhile Char.isWhitespace).reverse.dropWhile Char.isWhitespace).reverse

/-- Magnitude part of Python `float(...)` on its fixed-point decimal
fragment: digits with at most one `'.'`, at least one digit overall.
`"1."`, `".5"`, `"10.5"` parse; `""`, `"."`, `"1.2.3"`, `"1,2"` do not. -/
def floatMag (cs : List Char) : Option ℚ :=
  match quebra '.' cs with
  | [intp] =>
    if !intp.isEmpty && intp.all Char.isDigit then
      some (digitosVal intp)
    else none
  | [intp, fracp] =>
    if !(intp.isEmpty && fracp.isEmpty) && intp.all Char.isDigit
        && fracp.all Char.isDigit then
      some ((digitosVal intp : ℚ)
        + (digitosVal fracp : ℚ) / (10 : ℚ) ^ fracp.length)
    else none
  | _ => none

/-- Model of Python `float(txt)` on the fixed-point decimal fragment of its
grammar: surrounding whitespace stripped, optional sign, then `floatMag`. -/
def pythonFloat (cs : List Char) : Option ℚ :=
  match aparar cs with
  | '+' :: rest => floatMag rest
  | '-' :: rest => (floatMag rest).map (fun q => -q)
  | cs2 => floatMag cs2

/-- `float(valor_txt.replace('.', '').replace(',', '.'))` as an option:
`none` models the `ValueError` swallowed by the row-level `except`.  The
two `replace` calls on one-character patterns are a filter (drop every
`'.'`) followed by a map (turn every `','` into `'.'`). -/
def parseValor (valor_txt : String) : Option ℚ :=
  pythonFloat
    ((valor_txt.data.filter (fun c => c ≠ '.')).map
      (fun c => if c = ',' then '.' else c))

/-- Outcome of the body of `processar_pagina`'s row loop for one row. -/
inductive RowOutcome where
  /-- `continue` (row contributes nothing, scan goes on): absent or
  unmatched competence cell, non-matching filtered month, non-`GERADA`
  status, absent value cell, or a value-parse `ValueError`. -/
  | skip
  /-- `continuar = False; break`: year mismatch, or month strictly below
  the filter. -/
  | stop
  /-- the row is appended as `n`. -/
  | keep (n : Nota)
deriving DecidableEq, Repr

/-- The status and value checks of `processar_pagina`'s row loop (lines
reached only once the competence date passed the year and month tests):
drop the row unless `data-situacao` contains `'GERADA'`, then extract and
parse `td-valor`, and append the record on success. -/
def statusEValor (l : Linha) (mes_nota ano_nota : Nat) : RowOutcome :=
  if !contemGERADA l.data_situacao then .skip
  else
    match l.td_valor with
    | none => .skip
    | some valor_txt =>
      match parseValor valor_txt with
      | none => .skip
      | some valor =>
        .keep { mes := mes_nota, ano := (ano_nota : Int), valor := valor,
                status := "Autorizada" }

/-- The body of `processar_pagina`'s `for linha in tbody.find_all('tr')`
loop, for a single row: competence extraction, the year stop, the
month-filter stop/skip, then `statusEValor`. -/
def rowOutcome (l : Linha) (ano : Int) (mes_filtro : Option Nat) : RowOutcome :=
  match competencia l with
  | none => .skip
  | some (mes_nota, ano_nota) =>
    if (ano_nota : Int) ≠ ano then .stop
    else
      match mes_filtro with
      | some m =>
        if mes_nota < m then .stop
        else if mes_nota ≠ m then .skip
        else statusEValor l mes_nota ano_nota
      | none => statusEValor l mes_nota ano_nota

/-- The row loop of `processar_pagina`: accumulates kept rows in order and
reports the continuation flag (`continuar`), which a `stop` row sets to
`False` while also ending the scan. -/
def processarLinhas (ano : Int) (mes_filtro : Option Nat) :
    List Linha → List Nota × Bool
  | [] => ([], true)
  | l :: rest =>
    match rowOutcome l ano mes_filtro with
    | .stop => ([], false)
    | .skip => processarLinhas ano mes_filtro rest
    | .keep n =>
      let r := processarLinhas ano mes_filtro rest
      (n :: r.1, r.2)

/-- `processar_pagina(html, ano, mes_filtro)`: `(notas, False)` with
`notas = []` when the page has no `tbody`, otherwise the row loop. -/
def processar_pagina (html : Pagina) (ano : Int) (mes_filtro : Option Nat) :
    List Nota × Bool :=
  match html.tbody with
  | none => ([], false)
  | some linhas => processarLinhas ano mes_filtro linhas

/-- Result of one `session.get(url, timeout=30)` while paginating. -/
inductive FetchRes where
  /-- A response: `resp.status_code` and the parsed content of `resp.text`. -/
  | ok (status : Nat) (page : Pagina)
  /-- A transport exception (e.g. timeout), carrying `str(e)`. -/
  | exc (msg : String)
deriving Repr

/-- Outcome of `consultar_notas`. -/
inductive PagOutcome where
  /-- Normal return of `todas_notas`. -/
  | done (notas : List Nota)
  /-- `HTTPException(500, "Erro ao consultar página {pagina}: {e}")`. -/
  | fetchError (pagina : Nat) (detail : String)
  /-- The `while True` loop did not finish within the given fuel. -/
  | outOfFuel
deriving DecidableEq, Repr

/-- The `while True` loop of `consultar_notas`, starting at page `pagina`
with accumulator `acc`.  Each iteration: fetch the page (an exception
raises the 500 naming the current page); a non-200 status breaks, returning
the accumulator; otherwise the page is scraped, its records appended, and
the loop breaks when the scraper cleared `continuar` or the page has no
next-page link. -/
def consultarLoop (fetch : Nat → FetchRes) (ano : Int) (mes_filtro : Option Nat) :
    Nat → Nat → List Nota → PagOutcome
  | 0, _, _ => .outOfFuel
  | fuel + 1, pagina, acc =>
    match fetch pagina with
    | .exc msg =>
      .fetchError pagina
        ("Erro ao consultar página " ++ toString pagina ++ ": " ++ msg)
    | .ok status page =>
      if status ≠ 200 then .done acc
      else
        let r := processar_pagina page ano mes_filtro
        let acc2 := acc ++ r.1
        if !r.2 then .done acc2
        else if !page.temProxima then .done acc2
        else consultarLoop fetch ano mes_filtro fuel (pagina + 1) acc2

/-- `consultar_notas(session, ano, mes_filtro)`: pagination starts at page 1
with an empty accumulator.  `fetch` stands for `session.get` on the page-`n`
URL. -/
def consultar_notas (fetch : Nat → FetchRes) (ano : Int) (mes_filtro : Option Nat)
    (fuel : Nat) : PagOutcome :=
  consultarLoop fetch ano mes_filtro fuel 1 []

/-- `f"{m:02d}/{ano}"`: the month zero-padded to two digits, a slash, the
year printed as Python `str` prints an int. -/
def chave (mes : Nat) (ano : Int) : String :=
  (if mes < 10 then "0" ++ toString mes else toString mes) ++ "/" ++ toString ano

/-- `meses[chave] += valor` guarded by `if chave in meses`: adds `v` to the
entry with key `k` when present, and is the identity when the key is
absent. -/
def addToKey (k : String) (v : ℚ) : List (String × ℚ) → List (String × ℚ)
  | [] => []
  | (k2, v2) :: rest =>
    if k2 = k then (k2, v2 + v) :: rest else (k2, v2) :: addToKey k v rest

/-- The seeding loop of `totalizar_por_mes`: one zero entry for the filtered
month, or twelve zero entries `01/ano .. 12/ano`. -/
def sementes (ano : Int) (mes_filtro : Option Nat) : List (String × ℚ) :=
  match mes_filtro with
  | some m => [(chave m ano, 0)]
  | none => (List.range 12).map (fun i => (chave (i + 1) ano, 0))

/-- `totalizar_por_mes(notas, ano, mes_filtro)`: seed the months in scope
with zero, then fold the notes, adding each value at its `MM/YYYY` key when
that key exists. -/
def totalizar_por_mes (notas : List Nota) (ano : Int) (mes_filtro : Option Nat) :
    List (String × ℚ) :=
  notas.foldl (fun meses n => addToKey (chave n.mes n.ano) n.valor meses)
    (sementes ano mes_filtro)

/-- The request body (`ConsultaRequest`), after pydantic field typing. -/
structure ConsultaRequest where
  auth_method : Int
  ano : Int
  mes : Option Int
  cert_base64 : Option String
  cert_senha : Option String
  cnpj : Option String
  senha : Option String
deriving DecidableEq, Repr

/-- The pydantic validators on `ConsultaRequest`: `auth_method ∈ {1, 2}`,
`2000 ≤ ano ≤ 2100`, `mes` absent or in `1..12`. -/
def validar_request (req : ConsultaRequest) : Bool :=
  (req.auth_method = 1 || req.auth_method = 2)
    && (2000 ≤ req.ano && req.ano ≤ 2100)
    && (match req.mes with
        | none => true
        | some m => 1 ≤ m && m ≤ 12)

/-- The response body (`ConsultaResponse`); `detalhamento_por_mes` keeps the
dict's insertion order. -/
structure ConsultaResponse where
  cnpj : String
  razao_social : String
  ano : Int
  mes_filtrado : Option Int
  quantidade_autorizadas : Nat
  total_autorizado : ℚ
  total_cancelado : ℚ
  detalhamento_por_mes : List (String × ℚ)
deriving DecidableEq, Repr

/-- What the endpoint hands back to the framework. -/
inductive HandlerOutcome where
  /-- A `ConsultaResponse` value. -/
  | resposta (r : ConsultaResponse)
  /-- An `HTTPException(status_code, detail)`. -/
  | erro (status : Nat) (detail : String)
  /-- The pagination loop ran out of fuel (models non-termination). -/
  | diverge
deriving DecidableEq, Repr

/-- Python truthiness of an `Optional[str]` under `not`: `None` and `""`
are falsy. -/
def vazio : Option String → Bool
  | none => true
  | some s => s == ""

/-- The body of `consultar` after a session was established: contributor
lookup (an oracle — `extrair_contribuinte` never raises, falling back to
`('N/A', 'N/A')`), pagination, totals, and response assembly.  An
`HTTPException` from `consultar_notas` is re-raised unchanged. -/
def consultarCorpo (req : ConsultaRequest) (contribuinte : String × String)
    (fetch : Nat → FetchRes) (fuel : Nat) : HandlerOutcome :=
  let mf : Option Nat := req.mes.map Int.toNat
  match consultar_notas fetch req.ano mf fuel with
  | .outOfFuel => .diverge
  | .fetchError _ detail => .erro 500 detail
  | .done notas =>
    .resposta
      { cnpj := contribuinte.1
        razao_social := contribuinte.2
        ano := req.ano
        mes_filtrado := req.mes
        quantidade_autorizadas := notas.length
        total_autorizado := (notas.map Nota.valor).sum
        total_cancelado := 0  -- "Canceladas não são contabilizadas"
        detalhamento_por_mes := totalizar_por_mes notas req.ano mf }

/-- `consultar(req)`, the POST `/consultar` endpoint body.  The two
authenticators are oracles returning either a session (`Unit` — the model
keeps no session state) or the `HTTPException` they raise; the
`limpar_temp` cleanup in `finally` touches only the filesystem and has no
observable effect in the model.  The pydantic validators guarantee
`auth_method ∈ {1, 2}`; on any other value the Python body would leave
`session = None` and `consultar_notas` would raise an `AttributeError` on
page 1, converted to the 500 in the last branch. -/
def consultar (req : ConsultaRequest)
    (auth_cert : String → String → Except (Nat × String) Unit)
    (auth_login : String → String → Except (Nat × String) Unit)
    (contribuinte : String × String)
    (fetch : Nat → FetchRes) (fuel : Nat) : HandlerOutcome :=
  if req.auth_method = 1 then
    if vazio req.cert_base64 then .erro 400 "Campo obrigatório: cert_base64"
    else if vazio req.cert_senha then .erro 400 "Campo obrigatório: cert_senha"
    else
      match auth_cert (req.cert_base64.getD "") (req.cert_senha.getD "") with
      | .error e => .erro e.1 e.2
      | .ok _ => consultarCorpo req contribuinte fetch fuel
  else if req.auth_method = 2 then
    if vazio req.cnpj then .erro 400 "Campo obrigatório: cnpj"
    else if vazio req.senha then .erro 400 "Campo obrigatório: senha"
    else
      match auth_login (req.cnpj.getD "") (req.senha.getD "") with
      | .error e => .erro e.1 e.2
      | .ok _ => consultarCorpo req contribuinte fetch fuel
  else
    .erro 500 "Erro ao consultar página 1: 'NoneType' object has no attribute 'get'"

/-! ### Scraper lemmas -/

/-- `statusEValor` never signals a stop. -/
theorem statusEValor_ne_stop (l : Linha) (mn an : Nat) :
    statusEValor l mn an ≠ RowOutcome.stop := by
  unfold statusEValor
  split
  · exact fun h => RowOutcome.noConfusion h
  · split
    · exact fun h => RowOutcome.noConfusion h
    · split
      · exact fun h => RowOutcome.noConfusion h
      · exact fun h => RowOutcome.noConfusion h

/-- A record kept by the status-and-value stage carries the month and year
that were extracted from the competence cell, with status `Autorizada`. -/
theorem statusEValor_keep {l : Linha} {mn an : Nat} {n : Nota}
    (h : statusEValor l mn an = RowOutcome.keep n) :
    n.mes = mn ∧ n.ano = (an : Int) ∧ n.status = "Autorizada" := by
  unfold statusEValor at h
  split at h
  · exact RowOutcome.noConfusion h
  · split at h
    · exact RowOutcome.noConfusion h
    · split at h
      · exact RowOutcome.noConfusion h
      · cases h; exact ⟨rfl, rfl, rfl⟩

/-- A record kept by the row loop has the target year, and the filtered
month when a filter is set. -/
theorem rowOutcome_keep {l : Linha} {ano : Int} {mf : Option Nat} {n : Nota}
    (h : rowOutcome l ano mf = RowOutcome.keep n) :
    n.ano = ano ∧ ∀ m, mf = some m → n.mes = m := by
  rcases mf with _ | m
  · simp only [rowOutcome] at h
    split at h
    · exact RowOutcome.noConfusion h
    next mn an heq =>
      split at h
      · exact RowOutcome.noConfusion h
      next hy =>
        push_neg at hy
        obtain ⟨_, hano, _⟩ := statusEValor_keep h
        exact ⟨hy ▸ hano, fun m hm => Option.noConfusion hm⟩
  · simp only [rowOutcome] at h
    split at h
    · exact RowOutcome.noConfusion h
    next mn an heq =>
      split at h
      · exact RowOutcome.noConfusion h
      next hy =>
        push_neg at hy
        split at h
        · exact RowOutcome.noConfusion h
        · split at h
          · exact RowOutcome.noConfusion h
          next hne =>
            push_neg at hne
            obtain ⟨hmes, hano, _⟩ := statusEValor_keep h
            exact ⟨hy ▸ hano, fun m' hm' => by cases hm'; exact hne ▸ hmes⟩

/-- The row loop stops exactly on a parsed competence date whose year
differs from the target, or whose month is strictly below a set filter. -/
theorem rowOutcome_stop_iff (l : Linha) (ano : Int) (mf : Option Nat) :
    rowOutcome l ano mf = RowOutcome.stop ↔
      ∃ mn an, competencia l = some (mn, an) ∧
        ((an : Int) ≠ ano ∨ ((an : Int) = ano ∧ ∃ m, mf = some m ∧ mn < m)) := by
  constructor
  · intro h
    rcases mf with _ | m
    · simp only [rowOutcome] at h
      split at h
      · exact RowOutcome.noConfusion h
      next mn an heq =>
        refine ⟨mn, an, heq, ?_⟩
        split at h
        next hy => exact Or.inl hy
        next hy => exact absurd h (statusEValor_ne_stop l mn an)
    · simp only [rowOutcome] at h
      split at h
      · exact RowOutcome.noConfusion h
      next mn an heq =>
        refine ⟨mn, an, heq, ?_⟩
        split at h
        next hy => exact Or.inl hy
        next hy =>
          push_neg at hy
          split at h
          next hlt => exact Or.inr ⟨hy, m, rfl, hlt⟩
          · split at h
            · exact RowOutcome.noConfusion h
            · exact absurd h (statusEValor_ne_stop l mn an)
  · rintro ⟨mn, an, hc, hne | ⟨heq, m, hmf, hlt⟩⟩
    · simp only [rowOutcome, hc]
      simp [hne]
    · subst hmf
      simp only [rowOutcome, hc]
      simp [heq, hlt]

/-- A stopping row empties and ends the remainder of the scan. -/
theorem processarLinhas_cons_stop {l : Linha} {ano : Int} {mf : Option Nat}
    (rest : List Linha) (h : rowOutcome l ano mf = RowOutcome.stop) :
    processarLinhas ano mf (l :: rest) = ([], false) := by
  simp [processarLinhas, h]

/-- A skipped row leaves the scan of the remaining rows unchanged. -/
theorem processarLinhas_cons_skip {l : Linha} {ano : Int} {mf : Option Nat}
    (rest : List Linha) (h : rowOutcome l ano mf = RowOutcome.skip) :
    processarLinhas ano mf (l :: rest) = processarLinhas ano mf rest := by
  simp [processarLinhas, h]

/-- A kept row is prepended to the scan of the remaining rows. -/
theorem processarLinhas_cons_keep {l : Linha} {ano : Int} {mf : Option Nat}
    {n : Nota} (rest : List Linha) (h : rowOutcome l ano mf = RowOutcome.keep n) :
    processarLinhas ano mf (l :: rest)
      = (n :: (processarLinhas ano mf rest).1, (processarLinhas ano mf rest).2) := by
  simp [processarLinhas, h]

/-- Every record in the scan's output was kept by some row of the list. -/
theorem mem_processarLinhas {ano : Int} {mf : Option Nat} :
    ∀ {ls : List Linha} {n : Nota}, n ∈ (processarLinhas ano mf ls).1 →
      ∃ l ∈ ls, rowOutcome l ano mf = RowOutcome.keep n := by
  intro ls
  induction ls with
  | nil => intro n h; simp [processarLinhas] at h
  | cons l rest ih =>
    intro n h
    rcases ho : rowOutcome l ano mf with _ | _ | nk
    · rw [processarLinhas_cons_skip rest ho] at h
      obtain ⟨l', hl', hk⟩ := ih h
      exact ⟨l', List.mem_cons_of_mem l hl', hk⟩
    · rw [processarLinhas_cons_stop rest ho] at h
      simp at h
    · rw [processarLinhas_cons_keep rest ho] at h
      rcases List.mem_cons.mp h with rfl | hmem
      · exact ⟨l, List.mem_cons_self l rest, ho⟩
      · obtain ⟨l', hl', hk⟩ := ih hmem
        exact ⟨l', List.mem_cons_of_mem l hl', hk⟩

/-- The scan's continuation flag is `false` exactly when some row of the
list signals a stop (the rows before the first such row only skip or
keep, so the scan does reach it). -/
theorem processarLinhas_flag_false_iff (ano : Int) (mf : Option Nat) :
    ∀ ls : List Linha, (processarLinhas ano mf ls).2 = false ↔
      ∃ l ∈ ls, rowOutcome l ano mf = RowOutcome.stop := by
  intro ls
  induction ls with
  | nil => simp [processarLinhas]
  | cons l rest ih =>
    rcases ho : rowOutcome l ano mf with _ | _ | nk
    · rw [processarLinhas_cons_skip rest ho]
      rw [ih]
      constructor
      · rintro ⟨l', hl', hs⟩; exact ⟨l', List.mem_cons_of_mem l hl', hs⟩
      · rintro ⟨l', hl', hs⟩
        rcases List.mem_cons.mp hl' with rfl | hmem
        · exact absurd hs (by simp [ho])
        · exact ⟨l', hmem, hs⟩
    · rw [processarLinhas_cons_stop rest ho]
      exact ⟨fun _ => ⟨l, List.mem_cons_self l rest, ho⟩, fun _ => rfl⟩
    · rw [processarLinhas_cons_keep rest ho]
      show (processarLinhas ano mf rest).2 = false ↔ _
      rw [ih]
      constructor
      · rintro ⟨l', hl', hs⟩; exact ⟨l', List.mem_cons_of_mem l hl', hs⟩
      · rintro ⟨l', hl', hs⟩
        rcases List.mem_cons.mp hl' with rfl | hmem
        · exact absurd hs (by simp [ho])
        · exact ⟨l', hmem, hs⟩

/-! ### Aggregator lemmas -/

/-- `addToKey` never changes the key set (in particular its order and
length): a missing key drops the addition rather than inserting. -/
theorem addToKey_map_fst (k : String) (v : ℚ) :
    ∀ l : List (String × ℚ), (addToKey k v l).map Prod.fst = l.map Prod.fst := by
  intro l
  induction l with
  | nil => rfl
  | cons p rest ih =>
    rcases p with ⟨k2, v2⟩
    by_cases hk : k2 = k
    · simp [addToKey, hk]
    · simp [addToKey, hk, ih]

/-- Adding at a present key grows the total of the values by the added
amount. -/
theorem addToKey_sum_mem (k : String) (v : ℚ) :
    ∀ l : List (String × ℚ), k ∈ l.map Prod.fst →
      ((addToKey k v l).map Prod.snd).sum = (l.map Prod.snd).sum + v := by
  intro l
  induction l with
  | nil => intro h; simp at h
  | cons p rest ih =>
    rcases p with ⟨k2, v2⟩
    intro hmem
    by_cases hk : k2 = k
    · simp only [addToKey, if_pos hk, List.map_cons, List.sum_cons]
      ring
    · have hm2 : k ∈ rest.map Prod.fst := by
        rcases List.mem_cons.mp hmem with h | h
        · exact absurd h.symm hk
        · exact h
      simp only [addToKey, if_neg hk, List.map_cons, List.sum_cons, ih hm2]
      ring

/-- The seeded values are all zero, so they total zero. -/
theorem sementes_sum_zero (ano : Int) (mf : Option Nat) :
    ((sementes ano mf).map Prod.snd).sum = 0 := by
  rcases mf with _ | m
  · refine List.sum_eq_zero fun x hx => ?_
    rcases List.mem_map.mp hx with ⟨p, hp, rfl⟩
    rcases List.mem_map.mp hp with ⟨i, _, rfl⟩
    rfl
  · simp [sementes]

/-- Twelve months are seeded when no filter is set. -/
theorem sementes_none_fst (ano : Int) :
    (sementes ano none).map Prod.fst
      = (List.range 12).map (fun i => chave (i + 1) ano) := by
  simp [sementes, List.map_map]

/-- A month between 1 and 12 has its key among the unfiltered seeds. -/
theorem chave_mem_sementes_none {mes : Nat} (ano : Int)
    (h1 : 1 ≤ mes) (h12 : mes ≤ 12) :
    chave mes ano ∈ (sementes ano none).map Prod.fst := by
  rw [sementes_none_fst]
  refine List.mem_map.mpr ⟨mes - 1, List.mem_range.mpr ?_, ?_⟩
  · omega
  · congr 1
    omega

/-! ### Claim C1 -/

/-- Concrete page material used by the closed witnesses below. -/
def linhaBoa : Linha := ⟨some "03/2025", "GERADA", some "100,00"⟩

/-- A one-row page whose row is an authorized March 2025 invoice. -/
def paginaBoa : Pagina := ⟨some [linhaBoa], false⟩

/-- The record the scraper extracts from `paginaBoa` with no month filter. -/
def notaTeste : Nota := ((processar_pagina paginaBoa 2025 none).1).headI

/-- A row whose competence year (2024) differs from the target year 2025. -/
def linhaOutroAno : Linha := ⟨some "03/2024", "GERADA", some "1,00"⟩

/-- Claim C1: every invoice record retained by `processar_pagina` has its
year equal to the requested year, and a row whose competence year differs
from the target terminates the scan of that page (empty remainder,
continuation flag `false`) rather than being retained or filtered
downstream. -/
theorem processar_pagina_ano_invariante (html : Pagina) (ano : Int)
    (mf : Option Nat) :
    (∀ n ∈ (processar_pagina html ano mf).1, n.ano = ano)
    ∧ (∀ (l : Linha) (rest : List Linha) (mn an : Nat),
        competencia l = some (mn, an) → (an : Int) ≠ ano →
        processarLinhas ano mf (l :: rest) = ([], false)) := by
  constructor
  · intro n hn
    rcases htb : html.tbody with _ | linhas
    · simp [processar_pagina, htb] at hn
    · simp only [processar_pagina, htb] at hn
      obtain ⟨l, _, hk⟩ := mem_processarLinhas hn
      exact (rowOutcome_keep hk).1
  · intro l rest mn an hc hne
    refine processarLinhas_cons_stop rest ?_
    rw [rowOutcome_stop_iff]
    exact ⟨mn, an, hc, Or.inl hne⟩

/-- Witness for C1: the record scraped from `paginaBoa` carries year 2025,
and the scan of a 2024 row under target year 2025 stops at once. -/
theorem processar_pagina_ano_invariante_witness :
    notaTeste.ano = 2025
    ∧ processarLinhas 2025 none [linhaOutroAno] = ([], false) :=
  ⟨(processar_pagina_ano_invariante paginaBoa 2025 none).1 notaTeste
      (List.mem_singleton.mpr rfl),
   (processar_pagina_ano_invariante paginaBoa 2025 none).2 linhaOutroAno [] 3 2024
      (by decide) (by decide)⟩

/-! ### Claim C4 -/

/-- A row of the target year 2025 with month 2, strictly below filter 3. -/
def linhaMesAntigo : Linha := ⟨some "02/2025", "GERADA", some "1,00"⟩

/-- A row of the target year 2025 with month 5, above filter 3 but not
equal to it. -/
def linhaMesFuturo : Linha := ⟨some "05/2025", "GERADA", some "1,00"⟩

/-- The record scraped from `paginaBoa` under month filter 3. -/
def notaTeste3 : Nota := ((processar_pagina paginaBoa 2025 (some 3)).1).headI

/-- Claim C4: with a month filter `m`, a target-year row with month
strictly below `m` stops the scan with continuation `false`; a target-year
row with month not below `m` but different from `m` is skipped without
stopping; every scraped record carries month `m`; and the monthly-totals
mapping only ever has the single key `MM(m)/ano`, so no other month can
appear in it. -/
theorem processar_pagina_filtro_mes (ano : Int) (m : Nat) :
    (∀ (l : Linha) (rest : List Linha) (mn an : Nat),
        competencia l = some (mn, an) → (an : Int) = ano → mn < m →
        processarLinhas ano (some m) (l :: rest) = ([], false))
    ∧ (∀ (l : Linha) (rest : List Linha) (mn an : Nat),
        competencia l = some (mn, an) → (an : Int) = ano → ¬ mn < m → mn ≠ m →
        processarLinhas ano (some m) (l :: rest)
          = processarLinhas ano (some m) rest)
    ∧ (∀ html : Pagina, ∀ n ∈ (processar_pagina html ano (some m)).1, n.mes = m)
    ∧ (∀ notas : List Nota,
        (totalizar_por_mes notas ano (some m)).map Prod.fst = [chave m ano]) := by
  refine ⟨?_, ?_, ?_, ?_⟩
  · intro l rest mn an hc hy hlt
    refine processarLinhas_cons_stop rest ?_
    rw [rowOutcome_stop_iff]
    exact ⟨mn, an, hc, Or.inr ⟨hy, m, rfl, hlt⟩⟩
  · intro l rest mn an hc hy hge hne
    refine processarLinhas_cons_skip rest ?_
    simp only [rowOutcome, hc]
    simp [hy, hge, hne]
  · intro html n hn
    rcases htb : html.tbody with _ | linhas
    · simp [processar_pagina, htb] at hn
    · simp only [processar_pagina, htb] at hn
      obtain ⟨l, _, hk⟩ := mem_processarLinhas hn
      exact (rowOutcome_keep hk).2 m rfl
  · intro notas
    unfold totalizar_por_mes
    generalize hseed : sementes ano (some m) = seed
    have hfst : seed.map Prod.fst = [chave m ano] := by
      rw [← hseed]; rfl
    clear hseed
    induction notas generalizing seed with
    | nil => simpa using hfst
    | cons n rest ih =>
      simp only [List.foldl_cons]
      exact ih _ (by rw [addToKey_map_fst, hfst])

/-- Witness for C4 at `ano = 2025`, `m = 3`: a month-2 row stops the scan,
a month-5 row is skipped, the record scraped from `paginaBoa` has month 3,
and the totals for filter 3 have the single key built from month 3. -/
theorem processar_pagina_filtro_mes_witness :
    processarLinhas 2025 (some 3) [linhaMesAntigo] = ([], false)
    ∧ processarLinhas 2025 (some 3) [linhaMesFuturo]
        = processarLinhas 2025 (some 3) []
    ∧ notaTeste3.mes = 3
    ∧ (totalizar_por_mes [] 2025 (some 3)).map Prod.fst = [chave 3 2025] :=
  ⟨(processar_pagina_filtro_mes 2025 3).1 linhaMesAntigo [] 2 2025
      (by decide) (by decide) (by decide),
   (processar_pagina_filtro_mes 2025 3).2.1 linhaMesFuturo [] 5 2025
      (by decide) (by decide) (by decide) (by decide),
   (processar_pagina_filtro_mes 2025 3).2.2.1 paginaBoa notaTeste3
      (List.mem_singleton.mpr rfl),
   (processar_pagina_filtro_mes 2025 3).2.2.2 []⟩

/-! ### Claim C9 -/

/-- Counterexample to C9 as stated: a page whose listing table body is
absent comes back with continuation flag `false`, not `true` — the code
returns `(notas, False)` on `if not tbody`. -/
theorem processar_pagina_sem_tbody_counterexample :
    (processar_pagina ⟨none, true⟩ 2025 none).2 = false := rfl

/-- Claim C9 (amended): the continuation flag is `false` exactly when the
listing table body is absent or some row fired a stop condition of steps
2–3, and a row fires a stop condition exactly when its parsed competence
year differs from the target or, under a month filter, its month is
strictly older than the filter. -/
theorem processar_pagina_continuacao (html : Pagina) (ano : Int)
    (mf : Option Nat) :
    ((processar_pagina html ano mf).2 = false ↔
      html.tbody = none ∨ ∃ linhas, html.tbody = some linhas ∧
        ∃ l ∈ linhas, rowOutcome l ano mf = RowOutcome.stop)
    ∧ (∀ l : Linha, rowOutcome l ano mf = RowOutcome.stop ↔
        ∃ mn an, competencia l = some (mn, an) ∧
          ((an : Int) ≠ ano ∨ ((an : Int) = ano ∧ ∃ m, mf = some m ∧ mn < m))) := by
  constructor
  · rcases htb : html.tbody with _ | linhas
    · simp [processar_pagina, htb]
    · simp only [processar_pagina, htb]
      rw [processarLinhas_flag_false_iff]
      constructor
      · intro hex
        exact Or.inr ⟨linhas, rfl, hex⟩
      · rintro (hnone | ⟨ls2, heq, hex⟩)
        · exact Option.noConfusion hnone
        · cases heq
          exact hex
  · intro l
    exact rowOutcome_stop_iff l ano mf

/-- A kept record came through the status gate (`'GERADA'` present) and a
successful value parse of the `td-valor` text. -/
theorem statusEValor_keep_fonte {l : Linha} {mn an : Nat} {n : Nota}
    (h : statusEValor l mn an = RowOutcome.keep n) :
    contemGERADA l.data_situacao = true
    ∧ ∃ txt, l.td_valor = some txt ∧ parseValor txt = some n.valor := by
  unfold statusEValor at h
  split at h
  · exact RowOutcome.noConfusion h
  next hG =>
    refine ⟨by revert hG; cases contemGERADA l.data_situacao <;> simp, ?_⟩
    split at h
    · exact RowOutcome.noConfusion h
    next txt heq =>
      split at h
      · exact RowOutcome.noConfusion h
      next v hv =>
        cases h
        exact ⟨txt, heq, hv⟩

/-- A kept record comes from the `statusEValor` stage after a successful
competence parse. -/
theorem rowOutcome_keep_fonte {l : Linha} {ano : Int} {mf : Option Nat}
    {n : Nota} (h : rowOutcome l ano mf = RowOutcome.keep n) :
    ∃ mn an, competencia l = some (mn, an)
      ∧ statusEValor l mn an = RowOutcome.keep n := by
  rcases mf with _ | m <;> simp only [rowOutcome] at h
  · split at h
    · exact RowOutcome.noConfusion h
    next mn an heq =>
      split at h
      · exact RowOutcome.noConfusion h
      · exact ⟨mn, an, heq, h⟩
  · split at h
    · exact RowOutcome.noConfusion h
    next mn an heq =>
      split at h
      · exact RowOutcome.noConfusion h
      · split at h
        · exact RowOutcome.noConfusion h
        · split at h
          · exact RowOutcome.noConfusion h
          · exact ⟨mn, an, heq, h⟩

/-! ### Claim C2 -/

/-- A target-year row whose value text parses under Python `float` after
the separator swap (`"10,5"` → `float("10.5")`), which the spec wrongly
calls invalid. -/
def linhaDezVirgula : Linha := ⟨some "03/2025", "GERADA", some "10,5"⟩

/-- A target-year row whose value text (`"abc"`) raises a genuine
`ValueError`. -/
def linhaValorRuim : Linha := ⟨some "03/2025", "GERADA", some "abc"⟩

/-- A malformed-value row followed by a good row. -/
def paginaComValorRuim : Pagina := ⟨some [linhaValorRuim, linhaBoa], false⟩

/-- Counterexample to C2 as stated: `"10,5"` is *not* an invalid row.
`float("10,5".replace('.','').replace(',','.')) = float("10.5") = 10.5`
succeeds, and such a row is retained as a record rather than skipped. -/
theorem parse_valor_dez_virgula_counterexample :
    parseValor "10,5" = some (10.5 : ℚ)
    ∧ (processar_pagina ⟨some [linhaDezVirgula], false⟩ 2025 none).1.length
        = 1 := by
  constructor
  · show some ((digitosVal ['1', '0'] : ℚ)
        + (digitosVal ['5'] : ℚ) / (10 : ℚ) ^ (['5'].length)) = some (10.5 : ℚ)
    rw [show digitosVal ['1', '0'] = 10 from by decide,
        show digitosVal ['5'] = 5 from by decide]
    norm_num
  · rfl

/-- Claim C2 (amended): `"1.234,56"` parses to 1234.56 and `"0,00"` to 0;
but `"10,5"` parses to 10.5 and its row is retained rather than skipped.
Rows whose value text genuinely fails to parse are skipped without
aborting the rest of the page (the scan of the remaining rows is
unchanged, unless the row already stopped on its competence date). -/
theorem parse_valor_monetario :
    parseValor "1.234,56" = some (1234.56 : ℚ)
    ∧ parseValor "0,00" = some (0 : ℚ)
    ∧ parseValor "10,5" = some (10.5 : ℚ)
    ∧ (∀ (l : Linha) (ano : Int) (mf : Option Nat) (rest : List Linha)
        (txt : String),
        l.td_valor = some txt → parseValor txt = none →
        processarLinhas ano mf (l :: rest) = processarLinhas ano mf rest
          ∨ processarLinhas ano mf (l :: rest) = ([], false))
    ∧ (processar_pagina paginaComValorRuim 2025 none).1.length = 1
    ∧ (processar_pagina paginaComValorRuim 2025 none).2 = true := by
  refine ⟨?_, ?_, ?_, ?_, rfl, rfl⟩
  · show some ((digitosVal ['1', '2', '3', '4'] : ℚ)
        + (digitosVal ['5', '6'] : ℚ) / (10 : ℚ) ^ (['5', '6'].length))
      = some (1234.56 : ℚ)
    rw [show digitosVal ['1', '2', '3', '4'] = 1234 from by decide,
        show digitosVal ['5', '6'] = 56 from by decide]
    norm_num
  · show some ((digitosVal ['0'] : ℚ)
        + (digitosVal ['0', '0'] : ℚ) / (10 : ℚ) ^ (['0', '0'].length))
      = some (0 : ℚ)
    rw [show digitosVal ['0'] = 0 from by decide,
        show digitosVal ['0', '0'] = 0 from by decide]
    norm_num
  · show some ((digitosVal ['1', '0'] : ℚ)
        + (digitosVal ['5'] : ℚ) / (10 : ℚ) ^ (['5'].length)) = some (10.5 : ℚ)
    rw [show digitosVal ['1', '0'] = 10 from by decide,
        show digitosVal ['5'] = 5 from by decide]
    norm_num
  · intro l ano mf rest txt htxt hfail
    rcases ho : rowOutcome l ano mf with _ | _ | nk
    · exact Or.inl (processarLinhas_cons_skip rest ho)
    · exact Or.inr (processarLinhas_cons_stop rest ho)
    · obtain ⟨mn, an, _, hs⟩ := rowOutcome_keep_fonte ho
      obtain ⟨_, txt2, htxt2, hv⟩ := statusEValor_keep_fonte hs
      rw [htxt] at htxt2
      cases htxt2
      rw [hfail] at hv
      exact Option.noConfusion hv

/-- Witness for C2 (amended): the `"abc"`-valued row is skipped, leaving
the scan of the empty remainder unchanged. -/
theorem parse_valor_monetario_witness :
    processarLinhas 2025 none [linhaValorRuim] = processarLinhas 2025 none []
      ∨ processarLinhas 2025 none [linhaValorRuim] = ([], false) :=
  parse_valor_monetario.2.2.2.1 linhaValorRuim 2025 none [] "abc" rfl rfl

/-! ### Claim C7 -/

/-- Projection of a handler outcome onto its response, when there is one. -/
def asResposta : HandlerOutcome → Option ConsultaResponse
  | .resposta r => some r
  | _ => none

/-- Placeholder response used as a `getD` default. -/
def respostaVazia : ConsultaResponse := ⟨"", "", 0, none, 0, 0, 0, []⟩

/-- A cancelled row: `data-situacao` lacks `'GERADA'`, value 999.99. -/
def linhaCancelada : Linha := ⟨some "03/2025", "CANCELADA", some "999,99"⟩

/-- A login-method request with both credentials present. -/
def reqLogin : ConsultaRequest :=
  ⟨2, 2025, none, none, none, some "11222333000181", some "segredo"⟩

/-- An authenticator oracle that always succeeds. -/
def authOk : String → String → Except (Nat × String) Unit := fun _ _ => .ok ()

/-- A transport whose every page holds only the cancelled row. -/
def fetchCancelada : Nat → FetchRes := fun _ => .ok 200 ⟨some [linhaCancelada], false⟩

/-- The response of the handler on `fetchCancelada`. -/
def respostaCancelada : ConsultaResponse :=
  (asResposta (consultar reqLogin authOk authOk ("N/A", "N/A")
    fetchCancelada 3)).getD respostaVazia

/-- `consultarCorpo` always fills `total_cancelado` with the literal 0. -/
theorem consultarCorpo_cancelado {req : ConsultaRequest}
    {c : String × String} {fetch : Nat → FetchRes} {fuel : Nat}
    {r : ConsultaResponse}
    (h : consultarCorpo req c fetch fuel = HandlerOutcome.resposta r) :
    r.total_cancelado = 0 := by
  unfold consultarCorpo at h
  dsimp only [] at h
  split at h
  · exact HandlerOutcome.noConfusion h
  · exact HandlerOutcome.noConfusion h
  · cases h; rfl

/-- Claim C7: a row whose `data-situacao` does not contain `'GERADA'`
contributes nothing — the scan either skips it (output identical to the
remaining rows' scan) or had already stopped on its competence date — so
it reaches neither the records, nor the count, nor any monthly total; and
every response the handler produces reports `total_cancelado = 0`. -/
theorem linhas_nao_geradas_ignoradas :
    (∀ (l : Linha) (ano : Int) (mf : Option Nat) (rest : List Linha),
        contemGERADA l.data_situacao = false →
        processarLinhas ano mf (l :: rest) = processarLinhas ano mf rest
          ∨ processarLinhas ano mf (l :: rest) = ([], false))
    ∧ (∀ (req : ConsultaRequest)
        (ac al : String → String → Except (Nat × String) Unit)
        (c : String × String) (fetch : Nat → FetchRes) (fuel : Nat)
        (r : ConsultaResponse),
        consultar req ac al c fetch fuel = HandlerOutcome.resposta r →
        r.total_cancelado = 0) := by
  constructor
  · intro l ano mf rest hG
    rcases ho : rowOutcome l ano mf with _ | _ | nk
    · exact Or.inl (processarLinhas_cons_skip rest ho)
    · exact Or.inr (processarLinhas_cons_stop rest ho)
    · obtain ⟨mn, an, _, hs⟩ := rowOutcome_keep_fonte ho
      obtain ⟨hGt, _⟩ := statusEValor_keep_fonte hs
      rw [hG] at hGt
      exact Bool.noConfusion hGt
  · intro req ac al c fetch fuel r h
    unfold consultar at h
    split at h
    · split at h
      · exact HandlerOutcome.noConfusion h
      · split at h
        · exact HandlerOutcome.noConfusion h
        · split at h
          · exact HandlerOutcome.noConfusion h
          · exact consultarCorpo_cancelado h
    · split at h
      · split at h
        · exact HandlerOutcome.noConfusion h
        · split at h
          · exact HandlerOutcome.noConfusion h
          · split at h
            · exact HandlerOutcome.noConfusion h
            · exact consultarCorpo_cancelado h
      · exact HandlerOutcome.noConfusion h

/-- Witness for C7: the cancelled 999.99 row leaves the scan unchanged (or
stopped), and a complete run over a page holding only that row reports
`total_cancelado = 0`. -/
theorem linhas_nao_geradas_ignoradas_witness :
    (processarLinhas 2025 none [linhaCancelada] = processarLinhas 2025 none []
      ∨ processarLinhas 2025 none [linhaCancelada] = ([], false))
    ∧ respostaCancelada.total_cancelado = 0 :=
  ⟨linhas_nao_geradas_ignoradas.1 linhaCancelada 2025 none [] (by decide),
   linhas_nao_geradas_ignoradas.2 reqLogin authOk authOk ("N/A", "N/A")
     fetchCancelada 3 respostaCancelada rfl⟩

/-! ### Claim C3 -/

/-- A `fetchError` outcome of the pagination loop always reports a page
whose fetch raised a transport exception, with the exception text embedded
after the page index. -/
theorem consultarLoop_fetchError (fetch : Nat → FetchRes) (ano : Int)
    (mf : Option Nat) :
    ∀ (fuel pagina : Nat) (acc : List Nota) (p : Nat) (d : String),
      consultarLoop fetch ano mf fuel pagina acc = PagOutcome.fetchError p d →
      ∃ msg, fetch p = FetchRes.exc msg
        ∧ d = "Erro ao consultar página " ++ toString p ++ ": " ++ msg := by
  intro fuel
  induction fuel with
  | zero => intro pagina acc p d h; exact PagOutcome.noConfusion h
  | succ fuel ih =>
    intro pagina acc p d h
    simp only [consultarLoop] at h
    split at h
    next msg hf =>
      cases h
      exact ⟨msg, hf, rfl⟩
    next status page hf =>
      split at h
      · exact PagOutcome.noConfusion h
      · split at h
        · exact PagOutcome.noConfusion h
        · split at h
          · exact PagOutcome.noConfusion h
          · exact ih _ _ _ _ h

/-- A one-row authorized page that advertises a next page. -/
def paginaComProxima : Pagina := ⟨some [linhaBoa], true⟩

/-- A transport whose first page succeeds and whose second answers HTTP
500. -/
def fetchQuebraNaDois : Nat → FetchRes :=
  fun p => if p = 1 then .ok 200 paginaComProxima else .ok 500 ⟨none, false⟩

/-- A transport that raises on every page. -/
def fetchExcecao : Nat → FetchRes := fun _ => .exc "timeout"

/-- Counterexample to C3 as stated: when page 2 answers a non-success
HTTP status, the paginator does *not* fail with a `FetchError` — it breaks
out of the loop and returns the one record accumulated from page 1, i.e.
partial results with no error.  Only a transport exception raises. -/
theorem consultar_notas_status_counterexample :
    consultar_notas fetchQuebraNaDois 2025 none 5
      = PagOutcome.done (processar_pagina paginaComProxima 2025 none).1
    ∧ (processar_pagina paginaComProxima 2025 none).1.length = 1 :=
  ⟨rfl, rfl⟩

/-- Claim C3 (amended): a transport failure while fetching some page fails
the whole query with the 500 error naming that page index (and the error
path carries no records); a non-success HTTP status instead silently ends
pagination, returning whatever records were accumulated so far. -/
theorem consultar_notas_erros (fetch : Nat → FetchRes) (ano : Int)
    (mf : Option Nat) :
    (∀ (fuel p : Nat) (d : String),
        consultar_notas fetch ano mf fuel = PagOutcome.fetchError p d →
        ∃ msg, fetch p = FetchRes.exc msg
          ∧ d = "Erro ao consultar página " ++ toString p ++ ": " ++ msg)
    ∧ (∀ (fuel pagina : Nat) (acc : List Nota) (status : Nat) (page : Pagina),
        fetch pagina = FetchRes.ok status page → status ≠ 200 →
        consultarLoop fetch ano mf (fuel + 1) pagina acc
          = PagOutcome.done acc) := by
  constructor
  · intro fuel p d h
    exact consultarLoop_fetchError fetch ano mf fuel 1 [] p d h
  · intro fuel pagina acc status page hf hs
    simp only [consultarLoop, hf]
    simp [hs]

/-- Witness for C3 (amended): on an always-raising transport the query
fails with the 500 naming page 1; on a transport answering 500 at page 2,
the loop entered at page 2 returns the accumulator untouched. -/
theorem consultar_notas_erros_witness :
    (∃ msg, fetchExcecao 1 = FetchRes.exc msg
       ∧ "Erro ao consultar página 1: timeout"
           = "Erro ao consultar página " ++ toString 1 ++ ": " ++ msg)
    ∧ consultarLoop fetchQuebraNaDois 2025 none 7 2 []
        = PagOutcome.done [] :=
  ⟨(consultar_notas_erros fetchExcecao 2025 none).1 3 1
      "Erro ao consultar página 1: timeout" rfl,
   (consultar_notas_erros fetchQuebraNaDois 2025 none).2 6 2 [] 500
      ⟨none, false⟩ rfl (by decide)⟩

/-! ### Claim C5 -/

/-- Claim C5: aggregating an empty record list seeds every month in scope
with zero — twelve entries `01/ano .. 12/ano` all 0 when no month filter is
set, and the single entry `06/ano` mapped to 0 under filter 6; the key text
is the zero-padded month, a slash, and the year. -/
theorem totalizar_sementes (ano : Int) :
    totalizar_por_mes [] ano none
        = (List.range 12).map (fun i => (chave (i + 1) ano, (0 : ℚ)))
    ∧ (totalizar_por_mes [] ano none).length = 12
    ∧ (totalizar_por_mes [] ano none).map Prod.snd = List.replicate 12 (0 : ℚ)
    ∧ totalizar_por_mes [] ano (some 6) = [(chave 6 ano, 0)]
    ∧ chave 1 ano = "01/" ++ toString ano
    ∧ chave 6 ano = "06/" ++ toString ano
    ∧ chave 12 ano = "12/" ++ toString ano :=
  ⟨rfl, rfl, rfl, rfl, rfl, rfl, rfl⟩

/-! ### Claim C8 -/

/-- Claim C8: with `auth_method = 1` and `cert_base64` (resp. `cert_senha`)
missing or empty, and with `auth_method = 2` and `cnpj` (resp. `senha`)
missing or empty, the handler answers 400 naming the missing field.  The
authenticator, contributor and transport oracles are universally
quantified and unused on these paths: the failure precedes any network
call or authentication attempt. -/
theorem consultar_validacao (req : ConsultaRequest)
    (ac al : String → String → Except (Nat × String) Unit)
    (c : String × String) (fetch : Nat → FetchRes) (fuel : Nat) :
    (req.auth_method = 1 → vazio req.cert_base64 = true →
      consultar req ac al c fetch fuel
        = HandlerOutcome.erro 400 "Campo obrigatório: cert_base64")
    ∧ (req.auth_method = 1 → vazio req.cert_base64 = false →
        vazio req.cert_senha = true →
        consultar req ac al c fetch fuel
          = HandlerOutcome.erro 400 "Campo obrigatório: cert_senha")
    ∧ (req.auth_method = 2 → vazio req.cnpj = true →
        consultar req ac al c fetch fuel
          = HandlerOutcome.erro 400 "Campo obrigatório: cnpj")
    ∧ (req.auth_method = 2 → vazio req.cnpj = false → vazio req.senha = true →
        consultar req ac al c fetch fuel
          = HandlerOutcome.erro 400 "Campo obrigatório: senha") := by
  refine ⟨?_, ?_, ?_, ?_⟩
  · intro hm hv
    simp [consultar, hm, hv]
  · intro hm hv1 hv2
    simp [consultar, hm, hv1, hv2]
  · intro hm hv
    simp [consultar, hm, hv]
  · intro hm hv1 hv2
    simp [consultar, hm, hv1, hv2]

/-- Certificate request missing `cert_base64`. -/
def reqSemCert : ConsultaRequest := ⟨1, 2025, none, none, some "x", none, none⟩

/-- Certificate request with `cert_base64` present but `cert_senha`
missing. -/
def reqSemSenhaCert : ConsultaRequest :=
  ⟨1, 2025, none, some "Zm9v", none, none, none⟩

/-- Login request missing `cnpj`. -/
def reqSemCnpj : ConsultaRequest := ⟨2, 2025, none, none, none, none, some "x"⟩

/-- Login request with `cnpj` present but `senha` empty. -/
def reqSemSenha : ConsultaRequest :=
  ⟨2, 2025, none, none, none, some "11222333000181", some ""⟩

/-- Witness for C8: the four missing-credential requests each draw the 400
naming their missing field, against oracles that would fail loudly if
consulted. -/
theorem consultar_validacao_witness :
    consultar reqSemCert authOk authOk ("N/A", "N/A") fetchExcecao 1
        = HandlerOutcome.erro 400 "Campo obrigatório: cert_base64"
    ∧ consultar reqSemSenhaCert authOk authOk ("N/A", "N/A") fetchExcecao 1
        = HandlerOutcome.erro 400 "Campo obrigatório: cert_senha"
    ∧ consultar reqSemCnpj authOk authOk ("N/A", "N/A") fetchExcecao 1
        = HandlerOutcome.erro 400 "Campo obrigatório: cnpj"
    ∧ consultar reqSemSenha authOk authOk ("N/A", "N/A") fetchExcecao 1
        = HandlerOutcome.erro 400 "Campo obrigatório: senha" :=
  ⟨(consultar_validacao reqSemCert authOk authOk ("N/A", "N/A")
      fetchExcecao 1).1 rfl rfl,
   (consultar_validacao reqSemSenhaCert authOk authOk ("N/A", "N/A")
      fetchExcecao 1).2.1 rfl rfl rfl,
   (consultar_validacao reqSemCnpj authOk authOk ("N/A", "N/A")
      fetchExcecao 1).2.2.1 rfl rfl,
   (consultar_validacao reqSemSenha authOk authOk ("N/A", "N/A")
      fetchExcecao 1).2.2.2 rfl rfl rfl⟩

/-! ### Claim C10 -/

/-- A record shaped as the scraper can emit it with no month filter
(competence text `"13/2025"`): target year, but month 13. -/
def notaMesTreze : Nota := ⟨13, 2025, 1, "Autorizada"⟩

/-- A well-formed March record with amount 7. -/
def notaSete : Nota := ⟨3, 2025, 7, "Autorizada"⟩

/-- Folding records into a totals list whose key set contains every
record's key grows the total of the values by the records' total. -/
theorem foldl_addToKey_sum (notas : List Nota) :
    ∀ init : List (String × ℚ),
      (∀ n ∈ notas, chave n.mes n.ano ∈ init.map Prod.fst) →
      ((notas.foldl
          (fun meses n => addToKey (chave n.mes n.ano) n.valor meses)
          init).map Prod.snd).sum
        = (init.map Prod.snd).sum + (notas.map Nota.valor).sum := by
  induction notas with
  | nil => intro init _; simp
  | cons n rest ih =>
    intro init hmem
    have hmem1 : chave n.mes n.ano ∈ init.map Prod.fst :=
      hmem n (List.mem_cons_self n rest)
    have hrest : ∀ n' ∈ rest, chave n'.mes n'.ano ∈
        (addToKey (chave n.mes n.ano) n.valor init).map Prod.fst := by
      intro n' hn'
      rw [addToKey_map_fst]
      exact hmem n' (List.mem_cons_of_mem n hn')
    simp only [List.foldl_cons, List.map_cons, List.sum_cons]
    rw [ih _ hrest, addToKey_sum_mem _ _ _ hmem1]
    ring

/-- Counterexample to C10 as stated: the record list `[notaMesTreze]`
satisfies the claim's hypothesis (every record's year equals the requested
year 2025; no month filter), yet the monthly totals sum to 0 while the
records' amounts sum to 1 — the key-membership check in `totalizar_por_mes`
silently drops the month-13 record. -/
theorem totalizar_descarta_counterexample :
    notaMesTreze.ano = 2025
    ∧ ((totalizar_por_mes [notaMesTreze] 2025 none).map Prod.snd).sum = 0
    ∧ ([notaMesTreze].map Nota.valor).sum = 1 := by
  refine ⟨rfl, ?_, ?_⟩
  · have h : totalizar_por_mes [notaMesTreze] 2025 none
        = sementes 2025 none := rfl
    rw [h, sementes_sum_zero]
  · simp [notaMesTreze]

/-- Claim C10 (amended): for every record list in which each record's year
equals the requested year and its month equals the filter when one is set
— and is between 1 and 12 when none is — the values of the monthly totals
sum to exactly the sum of the record amounts: no such record is dropped by
the key-membership check. -/
theorem totalizar_consistente (notas : List Nota) (ano : Int)
    (mf : Option Nat)
    (h : ∀ n ∈ notas, n.ano = ano
      ∧ (∀ m, mf = some m → n.mes = m)
      ∧ (mf = none → 1 ≤ n.mes ∧ n.mes ≤ 12)) :
    ((totalizar_por_mes notas ano mf).map Prod.snd).sum
      = (notas.map Nota.valor).sum := by
  have hkeys : ∀ n ∈ notas, chave n.mes n.ano ∈ (sementes ano mf).map Prod.fst := by
    intro n hn
    obtain ⟨hano, hsome, hnone⟩ := h n hn
    rcases mf with _ | m
    · obtain ⟨h1, h12⟩ := hnone rfl
      rw [hano]
      exact chave_mem_sementes_none ano h1 h12
    · rw [hano, hsome m rfl]
      simp [sementes]
  unfold totalizar_por_mes
  rw [foldl_addToKey_sum notas (sementes ano mf) hkeys, sementes_sum_zero,
    zero_add]

/-- Witness for C10 (amended): a single March 2025 record of amount 7 with
no filter totals to 7 on both sides. -/
theorem totalizar_consistente_witness :
    ((totalizar_por_mes [notaSete] 2025 none).map Prod.snd).sum
      = ([notaSete].map Nota.valor).sum :=
  totalizar_consistente [notaSete] 2025 none (by
    intro n hn
    rw [List.mem_singleton] at hn
    subst hn
    exact ⟨rfl, fun m hm => Option.noConfusion hm, fun _ => by decide⟩)

/-! ### Claim C6 -/

/-- Second March 2025 invoice, 50.50. -/
def linha50 : Linha := ⟨some "03/2025", "GERADA", some "50,50"⟩

/-- May 2025 invoice, 200.00. -/
def linha200 : Linha := ⟨some "05/2025", "GERADA", some "200,00"⟩

/-- The end-to-end scenario page: 100.00 and 50.50 in March, 200.00 in
May, all authorized, no further pages. -/
def paginaCenario : Pagina := ⟨some [linhaBoa, linha50, linha200], false⟩

/-- A transport serving the scenario page. -/
def fetchCenario : Nat → FetchRes := fun _ => .ok 200 paginaCenario

/-- The handler's response on the scenario run (year 2025, no month
filter, login authentication succeeding). -/
def respostaCenario : ConsultaResponse :=
  (asResposta (consultar reqLogin authOk authOk
    ("11.222.333/0001-81", "Empresa Teste") fetchCenario 3)).getD respostaVazia

/-- Claim C6: on the three-invoice scenario (03/2025 → 100.00 and 50.50,
05/2025 → 200.00, year 2025, no month filter) the handler reports 3
authorized records totalling 350.50, with monthly totals 150.50 for
`03/2025`, 200.00 for `05/2025`, and 0 for every other month of 2025. -/
theorem consultar_cenario_tres_notas :
    consultar reqLogin authOk authOk ("11.222.333/0001-81", "Empresa Teste")
        fetchCenario 3
      = HandlerOutcome.resposta respostaCenario
    ∧ respostaCenario.quantidade_autorizadas = 3
    ∧ respostaCenario.total_autorizado = 350.5
    ∧ respostaCenario.detalhamento_por_mes
        = [("01/2025", 0), ("02/2025", 0), ("03/2025", 150.5), ("04/2025", 0),
           ("05/2025", 200), ("06/2025", 0), ("07/2025", 0), ("08/2025", 0),
           ("09/2025", 0), ("10/2025", 0), ("11/2025", 0), ("12/2025", 0)] := by
  have e1 : (digitosVal ['1', '0', '0'] : ℚ)
      + (digitosVal ['0', '0'] : ℚ) / (10 : ℚ) ^ (['0', '0'].length) = 100 := by
    rw [show digitosVal ['1', '0', '0'] = 100 from by decide,
        show digitosVal ['0', '0'] = 0 from by decide]
    norm_num
  have e2 : (digitosVal ['5', '0'] : ℚ)
      + (digitosVal ['5', '0'] : ℚ) / (10 : ℚ) ^ (['5', '0'].length) = 50.5 := by
    rw [show digitosVal ['5', '0'] = 50 from by decide]
    norm_num
  have e3 : (digitosVal ['2', '0', '0'] : ℚ)
      + (digitosVal ['0', '0'] : ℚ) / (10 : ℚ) ^ (['0', '0'].length) = 200 := by
    rw [show digitosVal ['2', '0', '0'] = 200 from by decide,
        show digitosVal ['0', '0'] = 0 from by decide]
    norm_num
  have h1 : rowOutcome linhaBoa 2025 none
      = RowOutcome.keep ⟨3, 2025, 100, "Autorizada"⟩ := by
    rw [show rowOutcome linhaBoa 2025 none
        = RowOutcome.keep ⟨3, 2025, (digitosVal ['1', '0', '0'] : ℚ)
            + (digitosVal ['0', '0'] : ℚ) / (10 : ℚ) ^ (['0', '0'].length),
            "Autorizada"⟩ from rfl, e1]
  have h2 : rowOutcome linha50 2025 none
      = RowOutcome.keep ⟨3, 2025, 50.5, "Autorizada"⟩ := by
    rw [show rowOutcome linha50 2025 none
        = RowOutcome.keep ⟨3, 2025, (digitosVal ['5', '0'] : ℚ)
            + (digitosVal ['5', '0'] : ℚ) / (10 : ℚ) ^ (['5', '0'].length),
            "Autorizada"⟩ from rfl, e2]
  have h3 : rowOutcome linha200 2025 none
      = RowOutcome.keep ⟨5, 2025, 200, "Autorizada"⟩ := by
    rw [show rowOutcome linha200 2025 none
        = RowOutcome.keep ⟨5, 2025, (digitosVal ['2', '0', '0'] : ℚ)
            + (digitosVal ['0', '0'] : ℚ) / (10 : ℚ) ^ (['0', '0'].length),
            "Autorizada"⟩ from rfl, e3]
  have hnotas : processar_pagina paginaCenario 2025 none
      = ([⟨3, 2025, 100, "Autorizada"⟩, ⟨3, 2025, 50.5, "Autorizada"⟩,
          ⟨5, 2025, 200, "Autorizada"⟩], true) := by
    show processarLinhas 2025 none [linhaBoa, linha50, linha200] = _
    rw [processarLinhas_cons_keep _ h1, processarLinhas_cons_keep _ h2,
        processarLinhas_cons_keep _ h3]
    simp [processarLinhas]
  have hdet : totalizar_por_mes
      [⟨3, 2025, 100, "Autorizada"⟩, ⟨3, 2025, 50.5, "Autorizada"⟩,
        ⟨5, 2025, 200, "Autorizada"⟩] 2025 none
      = [("01/2025", 0), ("02/2025", 0), ("03/2025", 0 + 100 + 50.5),
         ("04/2025", 0), ("05/2025", 0 + 200), ("06/2025", 0), ("07/2025", 0),
         ("08/2025", 0), ("09/2025", 0), ("10/2025", 0), ("11/2025", 0),
         ("12/2025", 0)] := rfl
  have hR : respostaCenario
      = { cnpj := "11.222.333/0001-81", razao_social := "Empresa Teste",
          ano := 2025, mes_filtrado := none,
          quantidade_autorizadas :=
            (([] : List Nota)
              ++ (processar_pagina paginaCenario 2025 none).1).length,
          total_autorizado :=
            ((([] : List Nota)
              ++ (processar_pagina paginaCenario 2025 none).1).map
                Nota.valor).sum,
          total_cancelado := 0,
          detalhamento_por_mes :=
            totalizar_por_mes
              (([] : List Nota)
                ++ (processar_pagina paginaCenario 2025 none).1)
              2025 none } := rfl
  rw [hnotas] at hR
  simp only [List.nil_append] at hR
  refine ⟨rfl, ?_, ?_, ?_⟩
  · rw [hR]
    rfl
  · rw [hR]
    show ([(100 : ℚ), 50.5, 200]).sum = 350.5
    norm_num [List.sum_cons]
  · rw [hR]
    show totalizar_por_mes
        [⟨3, 2025, 100, "Autorizada"⟩, ⟨3, 2025, 50.5, "Autorizada"⟩,
          ⟨5, 2025, 200, "Autorizada"⟩] 2025 none = _
    rw [hdet]
    norm_num
